import Mathlib

/-!
Verification of the corrosion-detection web application.

The core under verification is the detection-result-to-metric pipeline of
`src/utils/detection.py` (`CorrosionDetector.calculate_corrosion_percentage`)
and the handler flow of `src/app.py` (`upload_image`, `detect_corrosion`,
`add_comment`, `get_history`) together with its mock detector and mock
database client.

Modelling conventions:
- Python floats are modelled exactly as rationals (`ℚ`); the algebraic
  structure of the computation, not IEEE rounding, is the object of study.
- `cv2.imread` is modelled by an explicit filesystem map
  `FS : String → Option (Nat × Nat)` from an image path to its
  `(height, width)`; `none` models an unreadable image (`imread` returns
  `None`, and `None.shape` raises `AttributeError`).
- A `result.boxes` of Python `None` and of the empty list behave
  identically in the source (`if not result.boxes`); both are modelled by
  the empty Lean list.
- `uuid.uuid4()` is modelled by a deterministic supply `uuid : Nat → String`
  threaded as a counter; only freshness/locality matters to the claims.
-/

namespace CorrosionApp

/-- An axis-aligned bounding box `(x1, y1, x2, y2)` in pixel coordinates,
as delivered by `box.xyxy[0].tolist()`. -/
structure Box where
  x1 : ℚ
  y1 : ℚ
  x2 : ℚ
  y2 : ℚ
deriving Repr, DecidableEq

/-- A detection result: the analysed image path plus the detected boxes
(`results[0]` of the model call). -/
structure DetResult where
  path : String
  boxes : List Box
deriving Repr, DecidableEq

/-- Exceptions the percentage computation can raise in Python:
`AttributeError` when `cv2.imread` returned `None`, and `ZeroDivisionError`
when `total_pixels` is zero. -/
inductive PyError where
  | attributeError
  | zeroDivisionError
deriving Repr, DecidableEq

deriving instance DecidableEq for Except

/-- The filesystem as seen by `cv2.imread`: maps an image path to the
`(height, width)` of the stored image, or `none` when unreadable. -/
abbrev FS := String → Option (Nat × Nat)

/-- Raw area `(x2 - x1) * (y2 - y1)` of one box, exactly as summed by the
source loop: no clipping, no de-duplication. -/
def boxArea (b : Box) : ℚ := (b.x2 - b.x1) * (b.y2 - b.y1)

/-- Shallow embedding of `CorrosionDetector.calculate_corrosion_percentage`
(src/utils/detection.py, lines 14-30): early-return `0.0` on an empty
(or `None`) box list, otherwise read the image dimensions from the
filesystem, sum the raw box areas, and return
`corrosion_pixels / total_pixels * 100`. -/
def calculate_corrosion_percentage (fs : FS) (result : DetResult) :
    Except PyError ℚ :=
  if result.boxes = [] then .ok 0
  else
    match fs result.path with
    | none => .error .attributeError
    | some (height, width) =>
      let total_pixels : Nat := height * width
      let corrosion_pixels : ℚ := (result.boxes.map boxArea).sum
      if total_pixels = 0 then .error .zeroDivisionError
      else .ok (corrosion_pixels / (total_pixels : ℚ) * 100)

/-- The closed-form value computed on the non-error path: sum of raw box
areas over total pixels, times 100. -/
def pct (boxes : List Box) (height width : Nat) : ℚ :=
  (boxes.map boxArea).sum / ((height * width : Nat) : ℚ) * 100

/-- When the filesystem holds an image of positive pixel count at the
result path, the computation returns exactly `pct`. -/
theorem calc_eq_pct (fs : FS) (path : String) (B : List Box) (H W : Nat)
    (hfs : fs path = some (H, W)) (hpos : H * W ≠ 0) :
    calculate_corrosion_percentage fs ⟨path, B⟩ = .ok (pct B H W) := by
  unfold calculate_corrosion_percentage pct
  cases B with
  | nil => simp
  | cons b bs => simp [hfs, hpos]

/-- Deterministic model of `uuid.uuid4()`: the n-th identifier drawn from
the process-wide supply. -/
def uuid (n : Nat) : String := "uuid-" ++ toString n

/-- Outcome of one database call: the id of the returned row, or a raised
exception (message). -/
inductive DBResult where
  | ok (rid : String)
  | err (msg : String)
deriving Repr, DecidableEq

/-- The `detection_data` payload of src/app.py, lines 211-215. -/
structure DetectionData where
  boxes : List Box
  corrosion_percentage : ℚ
deriving Repr, DecidableEq

/-- A row of the `detections` table as inserted by the detect handler. -/
structure DetectionRecord where
  image_id : String
  corrosion_percentage : ℚ
  detection_data : DetectionData
deriving Repr, DecidableEq

/-- Persistence interface as consumed by the handlers. Every call threads
the uuid counter (the mock client draws fresh uuids from the same supply)
and either returns a row id or raises. -/
structure DB where
  insertImage : String → String → Nat → DBResult × Nat
  updateImageProcessed : String → String → Nat → DBResult × Nat
  insertDetection : DetectionRecord → Nat → DBResult × Nat
  insertComment : String → String → Nat → DBResult × Nat

/-- The `MockDB` client of src/app.py: every `execute` succeeds and
returns `data = [ the dict of a fresh uuid4 id ]`. -/
def mockDB : DB where
  insertImage := fun _ _ c => (.ok (uuid c), c + 1)
  updateImageProcessed := fun _ _ c => (.ok (uuid c), c + 1)
  insertDetection := fun _ c => (.ok (uuid c), c + 1)
  insertComment := fun _ _ c => (.ok (uuid c), c + 1)

/-- Detector capability: `detect` plus the percentage calculator, matching
the duck-typed interface the handlers use. -/
structure Detector where
  detect : String → DetResult
  calculate_corrosion_percentage : DetResult → Except PyError ℚ

/-- The `MockDetector` of src/app.py, lines 127-146: `detect` returns a
result with `boxes = None` (modelled as the empty list) and the original
path, and the calculator ignores its input and returns the constant
`15.7`. -/
def MockDetector : Detector where
  detect := fun image_path => ⟨image_path, []⟩
  calculate_corrosion_percentage := fun _ => .ok (157 / 10)

/-- Errors a handler can surface: the 400 response for missing/empty
request parameters, or an uncaught Python exception from the detector
path. -/
inductive AppError where
  | missingParameters
  | pyError (e : PyError)
deriving Repr, DecidableEq

/-- JSON payload of a successful `/upload`. -/
structure UploadResponse where
  image_id : String
  original_url : String
  filename : String
deriving Repr, DecidableEq

/-- JSON payload of a successful `/detect`. -/
structure DetectResponse where
  processed_url : String
  corrosion_percentage : ℚ
  detection_data : DetectionData
deriving Repr, DecidableEq

/-- JSON payload of a successful `/comment`. -/
structure CommentResponse where
  comment_id : String
  message : String
deriving Repr, DecidableEq

/-- A record of the `/history` response list. -/
structure HistoryRecord where
  id : String
  filename : String
  original_image_url : String
  processed_image_url : String
  uploaded_at : String
deriving Repr, DecidableEq

/-- Shallow embedding of `upload_image` (src/app.py, lines 156-186).
An empty filename models both 400 branches (`No file uploaded` /
`No file selected`); `secure_filename` is the identity on the names
modelled here. The database insert is wrapped in try/except: on a raise
the handler proceeds with a locally generated uuid. -/
def upload_image (db : DB) (filename : String) (c : Nat) :
    Except AppError (UploadResponse × Nat) :=
  if filename = "" then .error .missingParameters
  else
    let unique_filename := uuid c ++ "_" ++ filename
    match db.insertImage unique_filename ("/uploads/" ++ unique_filename)
        (c + 1) with
    | (.ok rid, c2) =>
      .ok (⟨rid, "/uploads/" ++ unique_filename, unique_filename⟩, c2)
    | (.err _, c2) =>
      .ok (⟨uuid c2, "/uploads/" ++ unique_filename, unique_filename⟩, c2 + 1)

/-- The `detection_data` dict the detect handler builds (src/app.py, lines
211-215): the `boxes` field is the literal empty list; only the
percentage comes from the detector. -/
def detection_payload (corrosion_percentage : ℚ) : DetectionData :=
  ⟨[], corrosion_percentage⟩

/-- The try/except block of database writes in the detect handler
(src/app.py, lines 217-226): update the image row, then insert the
detection record; a raise anywhere skips the rest and is swallowed.
Returns the advanced uuid counter. -/
def detect_db_writes (db : DB) (image_id processed_filename : String)
    (cp : ℚ) (c : Nat) : Nat :=
  match db.updateImageProcessed image_id
      ("/processed/" ++ processed_filename) c with
  | (.err _, c1) => c1
  | (.ok _, c1) =>
    (db.insertDetection ⟨image_id, cp, detection_payload cp⟩ c1).2

/-- Shallow embedding of `detect_corrosion` (src/app.py, lines 188-234):
validate parameters, run the detector on `uploads/<filename>`, compute the
percentage (an exception here propagates — there is no try around it),
perform the guarded database writes, and return the response payload.
The `result.save` filesystem write is a side effect outside the data
flow and is not modelled. -/
def detect_corrosion (det : Detector) (db : DB) (image_id filename : String)
    (c : Nat) : Except AppError (DetectResponse × Nat) :=
  if image_id = "" ∨ filename = "" then .error .missingParameters
  else
    let result := det.detect ("uploads/" ++ filename)
    let processed_filename := "processed_" ++ filename
    match det.calculate_corrosion_percentage result with
    | .error e => .error (.pyError e)
    | .ok cp =>
      .ok (⟨"/processed/" ++ processed_filename, cp, detection_payload cp⟩,
        detect_db_writes db image_id processed_filename cp c)

/-- Shallow embedding of `add_comment` (src/app.py, lines 236-259): the
insert is wrapped in try/except; on a raise the handler proceeds with a
locally generated uuid as `comment_id`. -/
def add_comment (db : DB) (image_id comment_text : String) (c : Nat) :
    Except AppError (CommentResponse × Nat) :=
  if image_id = "" ∨ comment_text = "" then .error .missingParameters
  else
    match db.insertComment image_id comment_text c with
    | (.ok rid, c2) => .ok (⟨rid, "Comment added successfully"⟩, c2)
    | (.err _, c2) => .ok (⟨uuid c2, "Comment added successfully"⟩, c2 + 1)

/-- Shallow embedding of `get_history` (src/app.py, lines 261-280): a
fixed canned list, independent of anything uploaded or detected. -/
def get_history : List HistoryRecord :=
  [⟨"mock-id-1", "sample1.jpg", "/static/sample1.jpg",
    "/static/sample1_processed.jpg", "2023-10-15T12:00:00Z"⟩,
   ⟨"mock-id-2", "sample2.jpg", "/static/sample2.jpg",
    "/static/sample2_processed.jpg", "2023-10-14T10:30:00Z"⟩]

/-- An always-raising store, modelling a remote service outage. -/
def failingDB : DB where
  insertImage := fun _ _ c => (.err "network down", c)
  updateImageProcessed := fun _ _ c => (.err "network down", c)
  insertDetection := fun _ c => (.err "network down", c)
  insertComment := fun _ _ c => (.err "network down", c)

/-- A detector that finds one concrete box and uses the real calculator
on a 10 × 10 image; used to exercise the handlers on non-empty
detections. -/
def boxyDetector : Detector where
  detect := fun image_path => ⟨image_path, [⟨0, 0, 5, 5⟩]⟩
  calculate_corrosion_percentage :=
    calculate_corrosion_percentage (fun _ => some (10, 10))

/-- C1: for every box sequence and image of positive dimensions, the
computation returns exactly the sum of the raw areas `(x2-x1)*(y2-y1)`
divided by `W*H`, times 100 — no de-duplication, no clipping, no overlap
correction. -/
theorem corrosion_percentage_exact_formula (fs : FS) (r : DetResult)
    (H W : Nat) (hfs : fs r.path = some (H, W)) (hW : 0 < W) (hH : 0 < H) :
    calculate_corrosion_percentage fs r =
      .ok ((r.boxes.map fun b => (b.x2 - b.x1) * (b.y2 - b.y1)).sum /
        ((W * H : Nat) : ℚ) * 100) := by
  obtain ⟨path, B⟩ := r
  have hne : H * W ≠ 0 := Nat.mul_ne_zero hH.ne' hW.ne'
  rw [calc_eq_pct fs path B H W hfs hne]
  unfold pct boxArea
  rw [Nat.mul_comm W H]

/-- C1 witness: a concrete one-box image evaluated through the theorem. -/
theorem corrosion_percentage_exact_formula_witness :
    calculate_corrosion_percentage (fun _ => some (2, 3)) ⟨"img", [⟨0, 0, 1, 1⟩]⟩ =
      .ok ((([⟨0, 0, 1, 1⟩] : List Box).map fun b =>
        (b.x2 - b.x1) * (b.y2 - b.y1)).sum / ((3 * 2 : Nat) : ℚ) * 100) :=
  corrosion_percentage_exact_formula (fun _ => some (2, 3))
    ⟨"img", [⟨0, 0, 1, 1⟩]⟩ 2 3 rfl (by decide) (by decide)

/-- C2 counterexample: on a 0 × 0 image with an empty box list the
computation returns the value `0.0`; it does not fail at all (the source
has no `InvalidDimensions` error anywhere). -/
theorem zero_dims_returns_value :
    calculate_corrosion_percentage (fun _ => some (0, 0)) ⟨"img", []⟩ = .ok 0 :=
  rfl

/-- C2 amended: with a zero-pixel image the computation never raises an
`InvalidDimensions` error: an empty box list returns `0.0` (the dimensions
are never read), and a non-empty box list raises `ZeroDivisionError`. -/
theorem zero_dims_behaviour (fs : FS) (path : String) (B : List Box)
    (H W : Nat) (hfs : fs path = some (H, W)) (hzero : H * W = 0) :
    (B = [] → calculate_corrosion_percentage fs ⟨path, B⟩ = .ok 0) ∧
    (B ≠ [] →
      calculate_corrosion_percentage fs ⟨path, B⟩ = .error .zeroDivisionError) := by
  constructor
  · intro hB; subst hB; rfl
  · intro hB
    unfold calculate_corrosion_percentage
    simp [hB, hfs, hzero]

/-- C2 amended witness: a non-empty box list on a 0 × 0 image raises
`ZeroDivisionError`. -/
theorem zero_dims_behaviour_witness :
    calculate_corrosion_percentage (fun _ => some (0, 0)) ⟨"i", [⟨0, 0, 1, 1⟩]⟩ =
      .error .zeroDivisionError :=
  (zero_dims_behaviour (fun _ => some (0, 0)) "i" [⟨0, 0, 1, 1⟩] 0 0 rfl rfl).2
    (by decide)

/-- C5: the computation is a pure function of the box list and the
dimensions stored at the result path: two filesystems agreeing on that one
entry yield identical results, so no other state influences the output. -/
theorem corrosion_percentage_pure (fs1 fs2 : FS) (r : DetResult)
    (h : fs1 r.path = fs2 r.path) :
    calculate_corrosion_percentage fs1 r = calculate_corrosion_percentage fs2 r := by
  unfold calculate_corrosion_percentage
  rw [h]

/-- C5 witness: two filesystems differing everywhere except at the result
path give the same percentage. -/
theorem corrosion_percentage_pure_witness :
    calculate_corrosion_percentage
        (fun p => if p = "img" then some (4, 5) else none)
        ⟨"img", [⟨0, 0, 2, 3⟩]⟩ =
      calculate_corrosion_percentage
        (fun p => if p = "img" then some (4, 5) else some (7, 7))
        ⟨"img", [⟨0, 0, 2, 3⟩]⟩ :=
  corrosion_percentage_pure
    (fun p => if p = "img" then some (4, 5) else none)
    (fun p => if p = "img" then some (4, 5) else some (7, 7))
    ⟨"img", [⟨0, 0, 2, 3⟩]⟩ (by decide)

/-- C6: the percentage is additive over list concatenation, two identical
fully-overlapping 10% boxes double-count to 20, two disjoint 10% boxes sum
to 20, and the single full-image box `(0,0,W,H)` yields exactly 100. -/
theorem corrosion_percentage_additive (fs : FS) (path : String)
    (B1 B2 : List Box) (H W : Nat) (hfs : fs path = some (H, W))
    (hW : 0 < W) (hH : 0 < H) :
    calculate_corrosion_percentage fs ⟨path, B1⟩ = .ok (pct B1 H W) ∧
    calculate_corrosion_percentage fs ⟨path, B2⟩ = .ok (pct B2 H W) ∧
    calculate_corrosion_percentage fs ⟨path, B1 ++ B2⟩ =
      .ok (pct B1 H W + pct B2 H W) ∧
    calculate_corrosion_percentage fs ⟨path, [⟨0, 0, (W : ℚ), (H : ℚ)⟩]⟩ =
      .ok 100 ∧
    calculate_corrosion_percentage (fun _ => some (10, 10))
      ⟨"img", [⟨0, 0, 10, 1⟩, ⟨0, 0, 10, 1⟩]⟩ = .ok 20 ∧
    calculate_corrosion_percentage (fun _ => some (10, 10))
      ⟨"img", [⟨0, 0, 10, 1⟩, ⟨0, 5, 10, 6⟩]⟩ = .ok 20 := by
  have hne : H * W ≠ 0 := Nat.mul_ne_zero hH.ne' hW.ne'
  refine ⟨calc_eq_pct fs path B1 H W hfs hne,
    calc_eq_pct fs path B2 H W hfs hne, ?_, ?_,
    by norm_num [calculate_corrosion_percentage, boxArea, List.cons_ne_nil],
    by norm_num [calculate_corrosion_percentage, boxArea, List.cons_ne_nil]⟩
  · rw [calc_eq_pct fs path (B1 ++ B2) H W hfs hne]
    unfold pct
    rw [List.map_append, List.sum_append, add_div, add_mul]
  · rw [calc_eq_pct fs path [⟨0, 0, (W : ℚ), (H : ℚ)⟩] H W hfs hne]
    unfold pct boxArea
    have hq : ((H * W : Nat) : ℚ) ≠ 0 := by
      exact_mod_cast hne
    push_cast
    push_cast at hq
    field_simp
    ring

/-- C6 witness: the additivity conjunction evaluated on an 8 × 9 image with
two concrete singleton box lists. -/
theorem corrosion_percentage_additive_witness :
    calculate_corrosion_percentage (fun _ => some (8, 9))
        ⟨"img", [⟨0, 0, 2, 2⟩]⟩ = .ok (pct [⟨0, 0, 2, 2⟩] 8 9) ∧
    calculate_corrosion_percentage (fun _ => some (8, 9))
        ⟨"img", [⟨1, 1, 3, 3⟩]⟩ = .ok (pct [⟨1, 1, 3, 3⟩] 8 9) ∧
    calculate_corrosion_percentage (fun _ => some (8, 9))
        ⟨"img", [⟨0, 0, 2, 2⟩] ++ [⟨1, 1, 3, 3⟩]⟩ =
      .ok (pct [⟨0, 0, 2, 2⟩] 8 9 + pct [⟨1, 1, 3, 3⟩] 8 9) ∧
    calculate_corrosion_percentage (fun _ => some (8, 9))
        ⟨"img", [⟨0, 0, (9 : ℚ), (8 : ℚ)⟩]⟩ = .ok 100 ∧
    calculate_corrosion_percentage (fun _ => some (10, 10))
      ⟨"img", [⟨0, 0, 10, 1⟩, ⟨0, 0, 10, 1⟩]⟩ = .ok 20 ∧
    calculate_corrosion_percentage (fun _ => some (10, 10))
      ⟨"img", [⟨0, 0, 10, 1⟩, ⟨0, 5, 10, 6⟩]⟩ = .ok 20 :=
  corrosion_percentage_additive (fun _ => some (8, 9)) "img"
    [⟨0, 0, 2, 2⟩] [⟨1, 1, 3, 3⟩] 8 9 rfl (by decide) (by decide)

/-- C7: an empty box sequence yields exactly `0.0` whenever the image
dimensions are positive (the source returns before touching them). -/
theorem empty_boxes_zero (fs : FS) (path : String) (H W : Nat)
    (hfs : fs path = some (H, W)) (hW : 0 < W) (hH : 0 < H) :
    calculate_corrosion_percentage fs ⟨path, []⟩ = .ok 0 := rfl

/-- C7 witness: the empty box list on a concrete 6 × 4 image. -/
theorem empty_boxes_zero_witness :
    calculate_corrosion_percentage (fun _ => some (6, 4)) ⟨"img", []⟩ = .ok 0 :=
  empty_boxes_zero (fun _ => some (6, 4)) "img" 6 4 rfl (by decide) (by decide)

/-- C3 counterexample: the record uploaded in a concrete mock flow (image
id `uuid 1`) is absent from the history listing, which holds only the
canned ids. -/
theorem history_missing_uploaded_record :
    upload_image mockDB "photo.jpg" 0 =
      .ok (⟨uuid 1, "/uploads/" ++ (uuid 0 ++ "_" ++ "photo.jpg"),
        uuid 0 ++ "_" ++ "photo.jpg"⟩, 2) ∧
    uuid 1 ∉ get_history.map HistoryRecord.id := by
  exact ⟨rfl, by decide⟩

/-- C3 amended: the mock end-to-end flow upload → detect → comment
succeeds, the detect step returning a non-empty processed url and the
fixed mock percentage 15.7, but the history listing is the fixed canned
list and contains neither the uploaded image id nor its filename. -/
theorem mock_end_to_end_flow :
    upload_image mockDB "photo.jpg" 0 =
      .ok (⟨uuid 1, "/uploads/uuid-0_photo.jpg", "uuid-0_photo.jpg"⟩, 2) ∧
    detect_corrosion MockDetector mockDB (uuid 1) "uuid-0_photo.jpg" 2 =
      .ok (⟨"/processed/processed_uuid-0_photo.jpg", 157 / 10,
        ⟨[], 157 / 10⟩⟩, 4) ∧
    add_comment mockDB (uuid 1) "Some corrosion visible" 4 =
      .ok (⟨uuid 4, "Comment added successfully"⟩, 5) ∧
    get_history.map HistoryRecord.id = ["mock-id-1", "mock-id-2"] ∧
    uuid 1 ∉ get_history.map HistoryRecord.id ∧
    "uuid-0_photo.jpg" ∉ get_history.map HistoryRecord.filename := by
  refine ⟨rfl, rfl, rfl, rfl, by decide, by decide⟩

/-- C4 counterexample: two identical full-image boxes yield a stored
percentage of 200, violating the claimed upper bound of 100. -/
theorem corrosion_percentage_exceeds_100 :
    calculate_corrosion_percentage (fun _ => some (10, 10))
        ⟨"img", [⟨0, 0, 10, 10⟩, ⟨0, 0, 10, 10⟩]⟩ = .ok 200 ∧
    ¬ ((200 : ℚ) ≤ 100) := by
  constructor
  · norm_num [calculate_corrosion_percentage, boxArea, List.cons_ne_nil]
  · norm_num

/-- C4 amended: whenever the computation returns a value and every
detected box is well-formed (`x1 ≤ x2`, `y1 ≤ y2`), the value is
non-negative; no upper bound holds (overlaps double-count). -/
theorem corrosion_percentage_nonneg (fs : FS) (r : DetResult) (q : ℚ)
    (hwf : ∀ b ∈ r.boxes, b.x1 ≤ b.x2 ∧ b.y1 ≤ b.y2)
    (hok : calculate_corrosion_percentage fs r = .ok q) : 0 ≤ q := by
  have hsum : 0 ≤ (r.boxes.map boxArea).sum := by
    apply List.sum_nonneg
    intro x hx
    obtain ⟨b, hb, rfl⟩ := List.mem_map.mp hx
    obtain ⟨h1, h2⟩ := hwf b hb
    exact mul_nonneg (sub_nonneg.mpr h1) (sub_nonneg.mpr h2)
  obtain ⟨path, B⟩ := r
  by_cases hB : B = []
  · subst hB
    have h0 : Except.ok (ε := PyError) (0 : ℚ) = .ok q := hok
    simp only [Except.ok.injEq] at h0
    exact h0 ▸ le_refl 0
  · cases hfs : fs path with
    | none => simp [calculate_corrosion_percentage, hB, hfs] at hok
    | some hw =>
      obtain ⟨H, W⟩ := hw
      by_cases hz : H * W = 0
      · simp [calculate_corrosion_percentage, hB, hfs, hz] at hok
      · rw [calc_eq_pct fs path B H W hfs hz] at hok
        simp only [Except.ok.injEq] at hok
        rw [← hok]
        unfold pct
        exact mul_nonneg
          (div_nonneg hsum (by exact_mod_cast Nat.zero_le (H * W)))
          (by norm_num)

/-- C4 amended witness: a well-formed half-covered image returns 25,
which the theorem certifies as non-negative. -/
theorem corrosion_percentage_nonneg_witness : (0 : ℚ) ≤ 25 :=
  corrosion_percentage_nonneg (fun _ => some (10, 10))
    ⟨"img", [⟨0, 0, 5, 5⟩]⟩ 25
    (by intro b hb; simp at hb; subst hb; norm_num)
    (by norm_num [calculate_corrosion_percentage, boxArea, List.cons_ne_nil])

/-- C8: the mock detector returns an empty box list for every path, its
calculator returns the fixed constant 15.7, and hence equal output on any
two inputs. -/
theorem mock_detector_fixed (p : String) (r1 r2 : DetResult) :
    (MockDetector.detect p).boxes = [] ∧
    MockDetector.calculate_corrosion_percentage r1 = .ok (157 / 10) ∧
    MockDetector.calculate_corrosion_percentage r1 =
      MockDetector.calculate_corrosion_percentage r2 :=
  ⟨rfl, rfl, rfl⟩

/-- C9: a raising persistence write during upload or comment is swallowed
at the handler boundary: both handlers still return a success payload
whose identifier is a locally generated uuid. -/
theorem persistence_failure_nonfatal (db : DB) (f imgid ctext : String)
    (c cu cc : Nat) (m1 m2 : String)
    (hf : f ≠ "") (hi : imgid ≠ "") (ht : ctext ≠ "")
    (hup : db.insertImage (uuid c ++ "_" ++ f)
      ("/uploads/" ++ (uuid c ++ "_" ++ f)) (c + 1) = (.err m1, cu))
    (hcm : db.insertComment imgid ctext c = (.err m2, cc)) :
    upload_image db f c =
      .ok (⟨uuid cu, "/uploads/" ++ (uuid c ++ "_" ++ f),
        uuid c ++ "_" ++ f⟩, cu + 1) ∧
    add_comment db imgid ctext c =
      .ok (⟨uuid cc, "Comment added successfully"⟩, cc + 1) := by
  constructor
  · unfold upload_image
    rw [if_neg hf]
    simp only [hup]
  · unfold add_comment
    rw [if_neg (by simp [hi, ht])]
    simp only [hcm]

/-- C9 witness: the always-raising store still lets a concrete upload and
comment complete with locally generated uuids. -/
theorem persistence_failure_nonfatal_witness :
    upload_image failingDB "photo.jpg" 0 =
      .ok (⟨uuid 1, "/uploads/" ++ (uuid 0 ++ "_" ++ "photo.jpg"),
        uuid 0 ++ "_" ++ "photo.jpg"⟩, 1 + 1) ∧
    add_comment failingDB "img-7" "rusty" 0 =
      .ok (⟨uuid 0, "Comment added successfully"⟩, 0 + 1) :=
  persistence_failure_nonfatal failingDB "photo.jpg" "img-7" "rusty" 0 1 0
    "network down" "network down" (by decide) (by decide) (by decide) rfl rfl

/-- C10: whatever the detector reports, the detection payload placed in
the response — and passed verbatim to the detection-record insert inside
`detect_db_writes` — has an empty `boxes` list; only the percentage
carries the detections. -/
theorem detection_data_boxes_empty (det : Detector) (db : DB)
    (image_id filename : String) (c : Nat) (cp : ℚ)
    (hi : image_id ≠ "") (hf : filename ≠ "")
    (hcalc : det.calculate_corrosion_percentage
      (det.detect ("uploads/" ++ filename)) = .ok cp) :
    detect_corrosion det db image_id filename c =
      .ok (⟨"/processed/processed_" ++ filename, cp, detection_payload cp⟩,
        detect_db_writes db image_id ("processed_" ++ filename) cp c) ∧
    (∀ p, (detection_payload p).boxes = []) := by
  constructor
  · unfold detect_corrosion
    rw [if_neg (by simp [hi, hf])]
    simp only [hcalc]
    rfl
  · intro p
    rfl

/-- C10 witness: a detector that finds a real box still yields a response
whose `detection_data.boxes` is empty, with only the percentage (25)
reflecting the detection. -/
theorem detection_data_boxes_empty_witness :
    detect_corrosion boxyDetector mockDB "img-7" "a.jpg" 0 =
      .ok (⟨"/processed/processed_" ++ "a.jpg", 25, detection_payload 25⟩,
        detect_db_writes mockDB "img-7" ("processed_" ++ "a.jpg") 25 0) ∧
    (∀ p, (detection_payload p).boxes = []) :=
  detection_data_boxes_empty boxyDetector mockDB "img-7" "a.jpg" 0 25
    (by decide) (by decide)
    (by norm_num [boxyDetector, calculate_corrosion_percentage, boxArea,
      List.cons_ne_nil])

end CorrosionApp
